import Mathlib

/-!
Verification of the tape-design compositor of the alura storefront.

This file shallowly embeds the canvas pipeline of the multi-layer
`TapeConfigurator` component (its `renderCanvas`, `findLayerAtPoint`,
pointer handlers and layer-store operations), the mask thresholding
`processMaskImage` of the single-layer variants, and the upload
validation of `ImageUploader`/`handleFileSelect`.

Modeling conventions:
* Colors are straight-alpha RGBA with rational channels, nominally in
  `[0,1]`; the canvas is an idealized continuous surface sampled at
  rational points.  Antialiasing, 8-bit quantization and premultiplied
  storage of the HTML canvas are not modeled; compositing follows the
  exact formulas of the CSS Compositing and Blending specification.
* `Math.cos`/`Math.sin` (applied by the renderer to `rotation * PI/180`)
  are modeled by an arbitrary pair of functions on degrees (`Trig`),
  passed to the renderer as an input; the concrete instance `trigZ`
  used on concrete states agrees with cosine and sine at rotation 0,
  the only rotation those states use.
* Dashed stroking (`setLineDash([8,4])`, `lineWidth 3`) is modeled with
  butt caps along each rectangle edge, dash distance measured along the
  rectangle path from its starting corner; miter joins at the corners
  are not modeled.
-/

namespace Alura

/-- Straight-alpha RGBA color; channels are rationals, nominally in `[0,1]`. -/
@[ext]
structure RGBA where
  r : ℚ
  g : ℚ
  b : ℚ
  a : ℚ
deriving DecidableEq, Repr

/-- The fully transparent color (value of cleared canvas pixels). -/
def clearPx : RGBA := ⟨0, 0, 0, 0⟩

/-- Plain `source-over` Porter-Duff compositing, straight alpha.  Division by a
zero output alpha yields `0` channels (rational division by zero is `0`),
matching the canonical fully transparent pixel. -/
def sourceOver (src dst : RGBA) : RGBA :=
  ⟨(src.a * src.r + dst.a * (1 - src.a) * dst.r) / (src.a + dst.a * (1 - src.a)),
   (src.a * src.g + dst.a * (1 - src.a) * dst.g) / (src.a + dst.a * (1 - src.a)),
   (src.a * src.b + dst.a * (1 - src.a) * dst.b) / (src.a + dst.a * (1 - src.a)),
   src.a + dst.a * (1 - src.a)⟩

/-- Model of `globalCompositeOperation = 'multiply'`: the multiply blend mode mixed
by the backdrop alpha, composited source-over (CSS Compositing and
Blending: `cs' = (1-ab)*cs + ab*(cs*cb)`). -/
def multiplyOver (src dst : RGBA) : RGBA :=
  ⟨(src.a * ((1 - dst.a) * src.r + dst.a * (src.r * dst.r)) +
      dst.a * (1 - src.a) * dst.r) / (src.a + dst.a * (1 - src.a)),
   (src.a * ((1 - dst.a) * src.g + dst.a * (src.g * dst.g)) +
      dst.a * (1 - src.a) * dst.g) / (src.a + dst.a * (1 - src.a)),
   (src.a * ((1 - dst.a) * src.b + dst.a * (src.b * dst.b)) +
      dst.a * (1 - src.a) * dst.b) / (src.a + dst.a * (1 - src.a)),
   src.a + dst.a * (1 - src.a)⟩

/-- Model of `globalCompositeOperation = 'destination-in'`: destination color kept,
destination alpha multiplied by source alpha. -/
def destinationIn (src dst : RGBA) : RGBA :=
  ⟨dst.r, dst.g, dst.b, dst.a * src.a⟩

/-- A decoded bitmap: natural size plus a sampling function.  The sample
is only meaningful on `[0,width) x [0,height)`; `bitmapAt` clips. -/
structure Bitmap where
  width : ℚ
  height : ℚ
  sample : ℚ → ℚ → RGBA

/-- Sampling a bitmap: outside its natural rectangle nothing is drawn. -/
def bitmapAt (img : Bitmap) (u v : ℚ) : RGBA :=
  if 0 ≤ u ∧ u < img.width ∧ 0 ≤ v ∧ v < img.height then img.sample u v else clearPx

/-- The interpretation of `Math.cos`/`Math.sin` on degrees: `cos d` models
`Math.cos(d * PI / 180)`.  Kept abstract, as an input of the renderer. -/
structure Trig where
  cos : ℚ → ℚ
  sin : ℚ → ℚ

/-- An uploaded file: MIME type and size in bytes (the two fields the
upload handlers inspect). -/
structure UFile where
  type : String
  size : ℕ
deriving DecidableEq, Repr

/-- The `ImageLayer` interface of the multi-layer configurator. -/
structure ImageLayer where
  id : String
  image : Bitmap
  file : UFile
  x : ℚ
  y : ℚ
  scale : ℚ
  rotation : ℚ

/-- Contents of `dragStartRef`. -/
structure DragStart where
  x : ℚ
  y : ℚ
  startX : ℚ
  startY : ℚ

/-- The interactive state of the multi-layer configurator: the layer
store, the selection, and the drag-session refs. -/
structure ConfigState where
  layers : List ImageLayer
  selectedLayerId : Option String
  dragging : Bool
  dragStart : DragStart

/-- Constant `CANVAS_WIDTH = 1024` of the component. -/
def CANVAS_WIDTH : ℚ := 1024

/-- Constant `CANVAS_HEIGHT = 300` of the multi-layer variant. -/
def CANVAS_HEIGHT : ℚ := 300

/-- Model of `ctx.drawImage(img, 0, 0, CANVAS_WIDTH, CANVAS_HEIGHT)`: the bitmap
stretched over the whole canvas, sampled at a canvas point. -/
def drawImageRect (img : Bitmap) (x y : ℚ) : RGBA :=
  bitmapAt img (x * img.width / CANVAS_WIDTH) (y * img.height / CANVAS_HEIGHT)

/-- Sample of one layer at a canvas point: the inverse of the context
transform `translate(l.x, l.y); rotate(rad(l.rotation)); scale(l.scale)`
applied to the point, then the bitmap drawn centered at the local origin
(`drawImage(img, -w/2, -h/2)`).  A degenerate (non-invertible) transform
draws nothing, as on the 2D canvas. -/
def layerSample (t : Trig) (l : ImageLayer) (x y : ℚ) : RGBA :=
  if l.scale = 0 then clearPx
  else
    bitmapAt l.image
      ((t.cos l.rotation * (x - l.x) + t.sin l.rotation * (y - l.y)) / l.scale
        + l.image.width / 2)
      ((-(t.sin l.rotation) * (x - l.x) + t.cos l.rotation * (y - l.y)) / l.scale
        + l.image.height / 2)

/-- Model of `ctx.setLineDash([8, 4])`: whether path distance `s` falls on a dash
(period 12, first 8 units on). -/
def dashOn (s : ℚ) : Bool :=
  decide (s - 12 * ((⌊s / 12⌋ : ℤ) : ℚ) < 8)

/-- Coverage of the dashed stroke of `strokeRect(-w, -h, 2*w, 2*h)` with
`lineWidth = 3`, at the local point `(qx, qy)`: within half the line
width of one of the four edges and on a dash, distance measured along
the rectangle path from `(-w, -h)` through `(w, -h)`, `(w, h)`,
`(-w, h)`. -/
def dashedRectStroke (w h qx qy : ℚ) : Bool :=
  (decide (|qy + h| ≤ 3 / 2) && decide (-w ≤ qx ∧ qx ≤ w) && dashOn (qx + w)) ||
  (decide (|qx - w| ≤ 3 / 2) && decide (-h ≤ qy ∧ qy ≤ h) && dashOn (qy + h + 2 * w)) ||
  (decide (|qy - h| ≤ 3 / 2) && decide (-w ≤ qx ∧ qx ≤ w) &&
    dashOn (w - qx + 2 * w + 2 * h)) ||
  (decide (|qx + w| ≤ 3 / 2) && decide (-h ≤ qy ∧ qy ≤ h) &&
    dashOn (h - qy + 4 * w + 2 * h))

/-- The selection border pass: `translate(sel.x, sel.y); rotate(rad(sel.rotation));
strokeRect(-w, -h, w*2, h*2)` with `w = image.width*scale/2`,
`h = image.height*scale/2`.  Decides whether the canvas point lies on
the dashed outline. -/
def borderCovers (t : Trig) (l : ImageLayer) (x y : ℚ) : Bool :=
  dashedRectStroke (l.image.width * l.scale / 2) (l.image.height * l.scale / 2)
    (t.cos l.rotation * (x - l.x) + t.sin l.rotation * (y - l.y))
    (-(t.sin l.rotation) * (x - l.x) + t.cos l.rotation * (y - l.y))

/-- Fill color of `ctx.fillStyle = '#0a0a0a'; ctx.fillRect(0, 0, W, H)`. -/
def bgPixel : RGBA := ⟨10 / 255, 10 / 255, 10 / 255, 1⟩

/-- Stroke color `#22c55e` of the selection outline. -/
def greenStroke : RGBA := ⟨34 / 255, 197 / 255, 94 / 255, 1⟩

/-- The `renderCanvas` pass of the multi-layer configurator, evaluated at
one canvas point: clear, background fill, tape drawn source-over, each
layer in store order with multiply blending, `destination-in` clip by
the tape bitmap when at least one layer exists, then the dashed
selection outline for `layers.find(l => l.id === selectedLayerId)`.
The same canvas is what `toDataURL` exports to `onDesignReady`. -/
def renderCanvas (t : Trig) (tape : Bitmap) (layers : List ImageLayer)
    (sel : Option String) (x y : ℚ) : RGBA :=
  let base := sourceOver (drawImageRect tape x y) bgPixel
  let withLayers := layers.foldl (fun acc l => multiplyOver (layerSample t l x y) acc) base
  let clipped :=
    if layers.length > 0 then destinationIn (drawImageRect tape x y) withLayers
    else withLayers
  match layers.find? (fun l => some l.id == sel) with
  | some s => if borderCovers t s x y then sourceOver greenStroke clipped else clipped
  | none => clipped

/-- The axis-aligned hit test of `findLayerAtPoint`:
`Math.abs(x - layer.x) < w && Math.abs(y - layer.y) < h` with
`w = image.width*scale/2`, `h = image.height*scale/2`. -/
def hitTest (l : ImageLayer) (x y : ℚ) : Bool :=
  decide (|x - l.x| < l.image.width * l.scale / 2 ∧
          |y - l.y| < l.image.height * l.scale / 2)

/-- Embedding of `findLayerAtPoint`: scan layers from the last (topmost) index down,
returning the first hit. -/
def findLayerAtPoint (layers : List ImageLayer) (x y : ℚ) : Option ImageLayer :=
  layers.reverse.find? (fun l => hitTest l x y)

/-- Embedding of `onCanvasMouseDown`: on a hit, select the layer and begin a drag
session; on a miss, nothing happens. -/
def onCanvasMouseDown (st : ConfigState) (x y : ℚ) : ConfigState :=
  match findLayerAtPoint st.layers x y with
  | some clicked =>
      { st with selectedLayerId := some clicked.id, dragging := true,
                dragStart := ⟨x, y, clicked.x, clicked.y⟩ }
  | none => st

/-- Embedding of `onCanvasMouseMove`: while dragging with a selection, set the selected
layer's translate to drag-start translate plus the pointer delta. -/
def onCanvasMouseMove (st : ConfigState) (px py : ℚ) : ConfigState :=
  if st.dragging = false ∨ st.selectedLayerId = none then st
  else
    { st with layers := st.layers.map (fun l =>
        if some l.id == st.selectedLayerId then
          { l with x := st.dragStart.startX + (px - st.dragStart.x),
                   y := st.dragStart.startY + (py - st.dragStart.y) }
        else l) }

/-- Truncation toward zero, as JavaScript's `%` uses. -/
def qTrunc (q : ℚ) : ℤ := if 0 ≤ q then ⌊q⌋ else ⌈q⌉

/-- JavaScript's remainder operator on numbers (sign of the dividend). -/
def jsRem (a b : ℚ) : ℚ := a - b * ((qTrunc (a / b) : ℤ) : ℚ)

/-- Embedding of `handleZoomIn`: `scale := Math.min(scale + 0.1, 3)` on the selected layer. -/
def handleZoomIn (st : ConfigState) : ConfigState :=
  { st with layers := st.layers.map (fun l =>
      if some l.id == st.selectedLayerId then { l with scale := min (l.scale + 0.1) 3 }
      else l) }

/-- Embedding of `handleZoomOut`: `scale := Math.max(scale - 0.1, 0.1)` on the selected layer. -/
def handleZoomOut (st : ConfigState) : ConfigState :=
  { st with layers := st.layers.map (fun l =>
      if some l.id == st.selectedLayerId then { l with scale := max (l.scale - 0.1) 0.1 }
      else l) }

/-- Embedding of `handleRotateLeft`: `rotation := (rotation - 15 + 360) % 360` on the
selected layer. -/
def handleRotateLeft (st : ConfigState) : ConfigState :=
  { st with layers := st.layers.map (fun l =>
      if some l.id == st.selectedLayerId then
        { l with rotation := jsRem (l.rotation - 15 + 360) 360 }
      else l) }

/-- Embedding of `handleRotateRight`: `rotation := (rotation + 15) % 360` on the
selected layer. -/
def handleRotateRight (st : ConfigState) : ConfigState :=
  { st with layers := st.layers.map (fun l =>
      if some l.id == st.selectedLayerId then
        { l with rotation := jsRem (l.rotation + 15) 360 }
      else l) }

/-- Embedding of `handleReset`: returns early when no layer with the selected id
exists, otherwise restores the selected layer's creation-time default
transform. -/
def handleReset (st : ConfigState) : ConfigState :=
  match st.layers.find? (fun l => some l.id == st.selectedLayerId) with
  | none => st
  | some _ =>
      { st with layers := st.layers.map (fun l =>
          if some l.id == st.selectedLayerId then
            { l with x := CANVAS_WIDTH / 2, y := CANVAS_HEIGHT / 2,
                     scale := 0.15, rotation := 0 }
          else l) }

/-- Embedding of `handleDelete` of the multi-layer configurator: filter out the
selected id and unconditionally clear the selection. -/
def handleDelete (st : ConfigState) : ConfigState :=
  { st with layers := st.layers.filter (fun l => !(some l.id == st.selectedLayerId)),
            selectedLayerId := none }

/-- Embedding of `deleteLayer` of the fullscreen multi-layer variant: no-op without a
selection; otherwise remove the selected id and move the selection to
the last remaining layer, or clear it when none remain. -/
def deleteLayer (st : ConfigState) : ConfigState :=
  match st.selectedLayerId with
  | none => st
  | some sid =>
      let remaining := st.layers.filter (fun l => !(l.id == sid))
      { st with layers := remaining,
                selectedLayerId :=
                  if remaining.length > 0 then remaining.getLast?.map (fun l => l.id)
                  else none }

/-- Prefix test `String.prototype.startsWith`, computed on the underlying character
list (extensionally the library's own prefix test, which does not
unfold in the kernel). -/
def strStartsWith (s p : String) : Bool := s.data.take p.data.length == p.data

/-- Embedding of `handleFileSelect` of the multi-layer configurator.  `decoded` is the
bitmap the asynchronous decode produces and `now` the value of
`Date.now()` when the decode callback runs; both are environment inputs.
A missing or non-image file returns without any notice; otherwise a new
layer with id `Date.now().toString()` and the default transform is
appended and selected.  The second component is the user-facing notice
(this handler never produces one). -/
def handleFileSelect (st : ConfigState) (f : Option UFile) (decoded : Bitmap)
    (now : ℕ) : ConfigState × Option String :=
  match f with
  | none => (st, none)
  | some file =>
      if strStartsWith file.type ("image/") then
        let newLayer : ImageLayer :=
          { id := toString now, image := decoded, file := file,
            x := CANVAS_WIDTH / 2, y := CANVAS_HEIGHT / 2, scale := 0.15, rotation := 0 }
        ({ st with layers := st.layers ++ [newLayer],
                   selectedLayerId := some newLayer.id }, none)
      else (st, none)

/-- The store state before any upload. -/
def emptyState : ConfigState := ⟨[], none, false, ⟨0, 0, 0, 0⟩⟩

/-- A sequence of completed uploads applied in order: each event carries
the selected file, the decoded bitmap and the `Date.now()` timestamp of
its decode callback. -/
def uploadSeq (st : ConfigState) (es : List (UFile × Bitmap × ℕ)) : ConfigState :=
  es.foldl (fun s e => (handleFileSelect s (some e.1) e.2.1 e.2.2).1) st

/-- A discrete 8-bit RGBA pixel of an `ImageData` buffer. -/
structure Px where
  r : ℕ
  g : ℕ
  b : ℕ
  a : ℕ
deriving DecidableEq, Repr

/-- The body of the `processMaskImage` pixel loop: a pixel passing the
marker-color test (`b > 150 && b > r && g > 100`) becomes opaque white;
any other pixel keeps its color channels and gets alpha `0`. -/
def processMaskPixel (p : Px) : Px :=
  if p.b > 150 ∧ p.b > p.r ∧ p.g > 100 then ⟨255, 255, 255, 255⟩
  else { p with a := 0 }

/-- Embedding of `processMaskImage`, applied to the full (already canvas-sized) mask
bitmap: the same per-pixel transform at every coordinate. -/
def processMaskImage (img : ℕ → ℕ → Px) : ℕ → ℕ → Px :=
  fun i j => processMaskPixel (img i j)

/-- Outcome of `ImageUploader.handleFile`: either a synchronous rejection
carrying the `alert` message, or acceptance (the file is read and
`onImageSelect` is invoked, the only path that can create a layer). -/
inductive UploadResult where
  | rejected (notice : String)
  | accepted (file : UFile)
deriving DecidableEq, Repr

/-- Embedding of `ImageUploader.handleFile`: rejects non-image MIME types and files
over `10 * 1024 * 1024` bytes with an alert; otherwise accepts. -/
def handleFile (f : UFile) : UploadResult :=
  if ¬ strStartsWith f.type ("image/") then
    UploadResult.rejected ("Please upload an image file")
  else if f.size > 10 * 1024 * 1024 then
    UploadResult.rejected ("File size must be less than 10MB")
  else UploadResult.accepted f

/-! ### Concrete fixtures

Concrete assets, layers and states used by witnesses and
counterexamples.  All their rotations are `0`, so `trigZ` — constantly
the cosine and sine of angle `0` — interprets the trigonometric
functions exactly on them. -/

/-- Interpretation of `Math.cos`/`Math.sin` agreeing with rotation `0`,
the only rotation the concrete fixtures use. -/
def trigZ : Trig := ⟨fun _ => 1, fun _ => 0⟩

/-- A 100x50 solid white bitmap. -/
def whiteBmp : Bitmap := ⟨100, 50, fun _ _ => ⟨1, 1, 1, 1⟩⟩

/-- A 100x50 solid black (fully opaque) bitmap. -/
def blackBmp : Bitmap := ⟨100, 50, fun _ _ => ⟨0, 0, 0, 1⟩⟩

/-- A canvas-sized tape bitmap that is transparent everywhere (its
printable silhouette is empty). -/
def clearTape : Bitmap := ⟨1024, 300, fun _ _ => clearPx⟩

/-- A canvas-sized tape bitmap that is opaque white everywhere. -/
def solidTape : Bitmap := ⟨1024, 300, fun _ _ => ⟨1, 1, 1, 1⟩⟩

/-- A small PNG upload. -/
def pngFile : UFile := ⟨"image/png", 1⟩

/-- A second, distinct PNG upload. -/
def pngFile2 : UFile := ⟨"image/png", 2⟩

/-- A non-image upload. -/
def txtFile : UFile := ⟨"text/plain", 5⟩

/-- A white layer centered on the canvas at scale 1, rotation 0. -/
def layerW : ImageLayer := ⟨"L", whiteBmp, pngFile, 512, 150, 1, 0⟩

/-- A black layer with the same placement as `layerW`. -/
def layerB : ImageLayer := ⟨"A", blackBmp, pngFile, 512, 150, 1, 0⟩

/-- A white layer with the same placement, added second. -/
def layerTop : ImageLayer := ⟨"B", whiteBmp, pngFile2, 512, 150, 1, 0⟩

/-- A white layer placed far left, not overlapping `layerW`'s box. -/
def layerFar : ImageLayer := ⟨"F", whiteBmp, pngFile2, 60, 150, 1, 0⟩

/-- A state holding `layerB` then `layerTop`, with `layerB` selected. -/
def stateAB : ConfigState := ⟨[layerB, layerTop], some ("A"), false, ⟨0, 0, 0, 0⟩⟩

/-- A state holding `layerFar` then `layerW`, with nothing selected. -/
def stateFW : ConfigState := ⟨[layerFar, layerW], none, false, ⟨0, 0, 0, 0⟩⟩

/-! ### Claim theorems -/

/-- C7: mask pre-processing is a deterministic per-pixel transform over
the full mask bitmap: a pixel passing the marker-color test (blue above
its threshold, blue above red, green above its threshold) becomes
opaque white `(255,255,255,255)`; every other pixel becomes fully
transparent (alpha `0`); no stencil pixel has any other opacity. -/
theorem process_mask_binary (p : Px) (img : ℕ → ℕ → Px) (i j : ℕ) :
    ((p.b > 150 ∧ p.b > p.r ∧ p.g > 100) →
      processMaskPixel p = ⟨255, 255, 255, 255⟩)
    ∧ (¬ (p.b > 150 ∧ p.b > p.r ∧ p.g > 100) → (processMaskPixel p).a = 0)
    ∧ ((processMaskPixel p).a = 0 ∨ (processMaskPixel p).a = 255)
    ∧ processMaskImage img i j = processMaskPixel (img i j) := by
  refine ⟨fun h => by simp [processMaskPixel, h],
          fun h => by simp [processMaskPixel, h], ?_, rfl⟩
  by_cases h : p.b > 150 ∧ p.b > p.r ∧ p.g > 100 <;> simp [processMaskPixel, h]

/-- Witness for `process_mask_binary` at two concrete pixels, one passing
and one failing the marker-color test. -/
theorem process_mask_binary_witness :
    processMaskPixel ⟨10, 120, 200, 7⟩ = ⟨255, 255, 255, 255⟩
    ∧ (processMaskPixel ⟨200, 50, 100, 9⟩).a = 0 :=
  ⟨(process_mask_binary ⟨10, 120, 200, 7⟩ (fun _ _ => ⟨0, 0, 0, 0⟩) 0 0).1
      (by norm_num),
   (process_mask_binary ⟨200, 50, 100, 9⟩ (fun _ _ => ⟨0, 0, 0, 0⟩) 0 0).2.1
      (by norm_num)⟩

/-- C8 (amended): `ImageUploader.handleFile` rejects a non-image MIME
type, and an over-limit file, synchronously with the corresponding
alert message, and a rejection never reaches the accepting path (so no
layer is created and the caller's state is untouched).  The multi-layer
configurator's own `handleFileSelect`, by contrast, drops a missing or
non-image file silently: the state is returned untouched, but no
user-facing notice is produced. -/
theorem upload_validation (f : UFile) (st : ConfigState) (u : UFile)
    (bmp : Bitmap) (now : ℕ) :
    (¬ strStartsWith f.type ("image/") = true →
      handleFile f = UploadResult.rejected ("Please upload an image file"))
    ∧ (strStartsWith f.type ("image/") = true → f.size > 10 * 1024 * 1024 →
      handleFile f = UploadResult.rejected ("File size must be less than 10MB"))
    ∧ (∀ msg g, handleFile f = UploadResult.rejected msg →
        handleFile f ≠ UploadResult.accepted g)
    ∧ (¬ strStartsWith u.type ("image/") = true →
        handleFileSelect st (some u) bmp now = (st, none))
    ∧ handleFileSelect st none bmp now = (st, none) := by
  refine ⟨fun h => by simp [handleFile, h],
          fun h1 h2 => by simp [handleFile, h1, h2],
          fun msg g hr ha => by rw [hr] at ha; exact UploadResult.noConfusion ha,
          fun h => by simp [handleFileSelect, h], rfl⟩

/-- Witness for `upload_validation`: a 15MB PNG under the 10MB limit is
rejected with the size alert, and a plain-text file is dropped silently
by the configurator's handler. -/
theorem upload_validation_witness :
    handleFile ⟨"image/png", 15 * 1024 * 1024⟩ =
      UploadResult.rejected ("File size must be less than 10MB")
    ∧ handleFileSelect emptyState (some txtFile) whiteBmp 0 = (emptyState, none) :=
  ⟨(upload_validation ⟨"image/png", 15 * 1024 * 1024⟩ emptyState txtFile whiteBmp 0).2.1
      (by decide) (by norm_num),
   (upload_validation ⟨"image/png", 15 * 1024 * 1024⟩ emptyState txtFile whiteBmp 0).2.2.2.1
      (by decide)⟩

/-- C8, counterexample to the claim as stated: the configurator's
`handleFileSelect` given a non-image file (an invalid upload) returns
with no user-facing notice at all — the rejection is silent, the
`alert`-backed notice exists only in `ImageUploader`. -/
theorem silent_reject_counterexample :
    (handleFileSelect emptyState (some txtFile) whiteBmp 0).2 = none
    ∧ (handleFileSelect emptyState (some txtFile) whiteBmp 0).1.layers.length = 0 := by
  have h : strStartsWith txtFile.type ("image/") = false := by decide
  constructor <;> simp [handleFileSelect, h, emptyState]

/-- C1: the compositor is deterministic — it is a pure function of the
asset bitmap, the ordered layer list and the selection (together with
the fixed trigonometric library), reading no clock, randomness or state
accumulated from previous frames; two invocations on identical inputs
produce the identical output bitmap (and hence identical encodings). -/
theorem renderCanvas_deterministic (t : Trig) (tape tape2 : Bitmap)
    (ls ls2 : List ImageLayer) (sel sel2 : Option String)
    (h1 : tape = tape2) (h2 : ls = ls2) (h3 : sel = sel2) :
    renderCanvas t tape ls sel = renderCanvas t tape2 ls2 sel2 := by
  subst h1; subst h2; subst h3; rfl

/-- Witness for `renderCanvas_deterministic` at a concrete repeated
invocation. -/
theorem renderCanvas_deterministic_witness :
    renderCanvas trigZ solidTape [layerW] (some ("L")) =
      renderCanvas trigZ solidTape [layerW] (some ("L")) :=
  renderCanvas_deterministic trigZ solidTape solidTape [layerW] [layerW]
    (some ("L")) (some ("L")) rfl rfl rfl

/-- C4: pointer-down hit-testing scans the unrotated scaled bounding
boxes topmost-first.  If the store is `pre ++ l :: post` (so every
member of `post` is above `l`), `l` has positive extent, and no member
of `post` is hit at `l`'s center, then a pointer-down at the exact
center `(l.x, l.y)` finds and selects `l`; and a pointer-down at a
point outside every layer's box finds nothing and leaves the state —
in particular the prior selection — unchanged. -/
theorem hit_test_selects_topmost (st : ConfigState) (pre post : List ImageLayer)
    (l : ImageLayer) (x y : ℚ)
    (hsplit : st.layers = pre ++ l :: post)
    (hw : 0 < l.image.width * l.scale) (hh : 0 < l.image.height * l.scale)
    (htop : ∀ l2 ∈ post, hitTest l2 l.x l.y = false)
    (hmiss : ∀ l2 ∈ st.layers, hitTest l2 x y = false) :
    (findLayerAtPoint st.layers l.x l.y = some l
      ∧ (onCanvasMouseDown st l.x l.y).selectedLayerId = some l.id)
    ∧ (findLayerAtPoint st.layers x y = none ∧ onCanvasMouseDown st x y = st) := by
  have hcenter : hitTest l l.x l.y = true := by
    simp only [hitTest, sub_self, abs_zero, decide_eq_true_eq]
    exact ⟨half_pos hw, half_pos hh⟩
  have hpostrev : (post.reverse.find? fun l2 => hitTest l2 l.x l.y) = none := by
    rw [List.find?_eq_none]
    intro a ha
    simp [htop a (List.mem_reverse.mp ha)]
  have hfind : findLayerAtPoint st.layers l.x l.y = some l := by
    rw [findLayerAtPoint, hsplit, List.reverse_append, List.reverse_cons,
      List.find?_append, List.find?_append, hpostrev,
      @List.find?_cons_of_pos _ (fun l2 => hitTest l2 l.x l.y) l [] hcenter]
    rfl
  have hnone : findLayerAtPoint st.layers x y = none := by
    rw [findLayerAtPoint, List.find?_eq_none]
    intro a ha
    simp [hmiss a (List.mem_reverse.mp ha)]
  refine ⟨⟨hfind, ?_⟩, hnone, ?_⟩
  · rw [onCanvasMouseDown, hfind]
  · rw [onCanvasMouseDown, hnone]

/-- Witness for `hit_test_selects_topmost`: in a state holding the far
layer below `layerW`, a pointer-down at `layerW`'s center selects it,
and a pointer-down at the canvas corner `(0,0)` — outside both boxes —
changes nothing. -/
theorem hit_test_selects_topmost_witness :
    (findLayerAtPoint stateFW.layers layerW.x layerW.y = some layerW
      ∧ (onCanvasMouseDown stateFW layerW.x layerW.y).selectedLayerId = some layerW.id)
    ∧ (findLayerAtPoint stateFW.layers 0 0 = none
      ∧ onCanvasMouseDown stateFW 0 0 = stateFW) :=
  hit_test_selects_topmost stateFW [layerFar] [] layerW 0 0 rfl
    (by norm_num [layerW, whiteBmp]) (by norm_num [layerW, whiteBmp])
    (by simp)
    (by
      intro l2 h2
      simp only [stateFW, List.mem_cons, List.not_mem_nil, or_false] at h2
      rcases h2 with rfl | rfl <;>
        norm_num [hitTest, layerFar, layerW, whiteBmp])

/-- C5 (amended): in the fullscreen variant's `deleteLayer`, deleting
the selected layer removes exactly the layers carrying the selected id
and moves the selection to the most-recently-added remaining layer (or
clears it when none remain), so the selection never references a
missing id.  In the main multi-layer variant's `handleDelete`, the
selected id is likewise removed but the selection is always cleared to
empty, even when layers remain. -/
theorem delete_selection_safety (st : ConfigState) (sid : String)
    (hsel : st.selectedLayerId = some sid) :
    (∀ l, l ∈ (deleteLayer st).layers ↔ l ∈ st.layers ∧ l.id ≠ sid)
    ∧ (∀ i, (deleteLayer st).selectedLayerId = some i →
        ∃ l, l ∈ (deleteLayer st).layers ∧ l.id = i)
    ∧ ((deleteLayer st).layers = [] → (deleteLayer st).selectedLayerId = none)
    ∧ (handleDelete st).selectedLayerId = none
    ∧ (∀ l, l ∈ (handleDelete st).layers ↔ l ∈ st.layers ∧ l.id ≠ sid) := by
  refine ⟨?_, ?_, ?_, rfl, ?_⟩
  · intro l
    simp [deleteLayer, hsel, List.mem_filter]
  · intro i hi
    simp only [deleteLayer, hsel] at hi ⊢
    set remaining := st.layers.filter (fun l => !(l.id == sid)) with hrem
    by_cases hlen : remaining.length > 0
    · rw [if_pos hlen] at hi
      rcases Option.map_eq_some'.mp hi with ⟨last, hlast, hid⟩
      rcases List.mem_getLast?_eq_getLast
          (show last ∈ remaining.getLast? from hlast) with ⟨hne2, heq⟩
      exact ⟨last, by rw [heq]; exact List.getLast_mem hne2, hid⟩
    · rw [if_neg hlen] at hi
      exact absurd hi (by simp)
  · intro hempty
    simp only [deleteLayer, hsel] at hempty ⊢
    rw [if_neg (by simp [hempty])]
  · intro l
    simp [handleDelete, hsel, List.mem_filter]

/-- Witness for `delete_selection_safety` at the concrete two-layer
state with the bottom layer selected. -/
theorem delete_selection_safety_witness :
    (∀ l, l ∈ (deleteLayer stateAB).layers ↔ l ∈ stateAB.layers ∧ l.id ≠ "A")
    ∧ (∀ i, (deleteLayer stateAB).selectedLayerId = some i →
        ∃ l, l ∈ (deleteLayer stateAB).layers ∧ l.id = i)
    ∧ ((deleteLayer stateAB).layers = [] → (deleteLayer stateAB).selectedLayerId = none)
    ∧ (handleDelete stateAB).selectedLayerId = none
    ∧ (∀ l, l ∈ (handleDelete stateAB).layers ↔ l ∈ stateAB.layers ∧ l.id ≠ "A") :=
  delete_selection_safety stateAB ("A") rfl

/-- C5, counterexample to the claim as stated: deleting the selected
layer `"A"` from the main variant's two-layer state leaves the
most-recently-added layer `"B"` in the store, yet the selection becomes
empty instead of moving to `"B"`. -/
theorem delete_clears_selection_counterexample :
    ((handleDelete stateAB).layers.map fun l => l.id) = ["B"]
    ∧ (handleDelete stateAB).selectedLayerId = none := by
  constructor
  · simp [handleDelete, stateAB, layerB, layerTop, List.filter]
  · rfl

/-- Ids of the store after a run of successful uploads: the prior ids
followed by the stringified timestamps, in upload order. -/
theorem uploadSeq_ids (es : List (UFile × Bitmap × ℕ)) (st : ConfigState)
    (himg : ∀ e ∈ es, strStartsWith e.1.type ("image/") = true) :
    (uploadSeq st es).layers.map (fun l => l.id)
      = st.layers.map (fun l => l.id) ++ es.map (fun e => toString e.2.2) := by
  induction es generalizing st with
  | nil => simp [uploadSeq]
  | cons e es ih =>
      have he := himg e (by simp)
      have hrest : ∀ e2 ∈ es, strStartsWith e2.1.type ("image/") = true :=
        fun e2 h2 => himg e2 (by simp [h2])
      show (uploadSeq ((handleFileSelect st (some e.1) e.2.1 e.2.2).1) es).layers.map
            (fun l => l.id) = _
      rw [ih _ hrest]
      simp [handleFileSelect, he]

/-- C9 (amended): layer ids are the `Date.now()` timestamps of the
upload decode callbacks; they are pairwise distinct provided those
generated id strings are pairwise distinct (the store itself enforces
nothing), and insertion order is z-order: the layer list equals the
upload order, and the compositor folds it left-to-right, blending the
last-added layer last (on top). -/
theorem layer_ids_unique_of_distinct_timestamps (es : List (UFile × Bitmap × ℕ))
    (himg : ∀ e ∈ es, strStartsWith e.1.type ("image/") = true)
    (hids : (es.map (fun e => toString e.2.2)).Nodup) :
    ((uploadSeq emptyState es).layers.map (fun l => l.id)).Nodup
    ∧ (uploadSeq emptyState es).layers.map (fun l => l.id)
        = es.map (fun e => toString e.2.2)
    ∧ ∀ (t : Trig) (ls : List ImageLayer) (l : ImageLayer) (base : RGBA) (x y : ℚ),
        (ls ++ [l]).foldl (fun acc l2 => multiplyOver (layerSample t l2 x y) acc) base
          = multiplyOver (layerSample t l x y)
              (ls.foldl (fun acc l2 => multiplyOver (layerSample t l2 x y) acc) base) := by
  have h := uploadSeq_ids es emptyState himg
  have h0 : emptyState.layers.map (fun l => l.id) = [] := rfl
  rw [h0, List.nil_append] at h
  refine ⟨by rw [h]; exact hids, h, ?_⟩
  intro t ls l base x y
  rw [List.foldl_append]
  rfl

/-- A concrete pair of successful uploads with distinct timestamps. -/
def uploadsW : List (UFile × Bitmap × ℕ) := [(pngFile, whiteBmp, 1), (pngFile2, blackBmp, 2)]

/-- Witness for `layer_ids_unique_of_distinct_timestamps` at two
concrete uploads with timestamps 1 and 2. -/
theorem layer_ids_unique_witness :
    ((uploadSeq emptyState uploadsW).layers.map (fun l => l.id)).Nodup
    ∧ (uploadSeq emptyState uploadsW).layers.map (fun l => l.id) = ["1", "2"] := by
  have h := layer_ids_unique_of_distinct_timestamps uploadsW (by decide) (by decide)
  exact ⟨h.1, by rw [h.2.1]; rfl⟩

/-- C9, counterexample to the claim as stated: two uploads whose decode
callbacks run in the same `Date.now()` millisecond produce two distinct
layers (their source files differ) carrying the same id `"5"`. -/
theorem duplicate_id_counterexample :
    ((uploadSeq emptyState [(pngFile, whiteBmp, 5), (pngFile2, blackBmp, 5)]).layers.map
        fun l => (l.id, l.file.size)) = [("5", 1), ("5", 2)] := by
  simp [uploadSeq, handleFileSelect, emptyState, pngFile, pngFile2,
    strStartsWith]
  rfl

/-- Pointwise frame conditions lift to `Forall₂` along a `map`. -/
theorem forall2_map_frame {α : Type} (R : α → α → Prop) (f : α → α)
    (ls : List α) (h : ∀ l ∈ ls, R l (f l)) : List.Forall₂ R ls (ls.map f) := by
  induction ls with
  | nil => simp
  | cons a ls ih =>
      exact List.Forall₂.cons (h a (by simp)) (ih fun l hl => h l (by simp [hl]))

/-- Pointwise reflexive frame conditions give `Forall₂` of a list with
itself. -/
theorem forall2_self_frame {α : Type} (R : α → α → Prop)
    (ls : List α) (h : ∀ l ∈ ls, R l l) : List.Forall₂ R ls ls := by
  have := forall2_map_frame R id ls (by simpa using h)
  simpa using this

/-- C10: every transform edit — drag move, zoom in/out, rotate by 15
degrees either way, reset — edits the layer list pointwise: the list
keeps its length and order, every layer keeps its id, bitmap and source
file, any layer whose id is not the selected one is completely
unchanged, and the selected layer changes at most the targeted fields
(translate for drag, scale for zoom, rotation for rotate, all four for
reset). -/
theorem transform_edits_frame (st : ConfigState) (px py : ℚ) :
    List.Forall₂ (fun l l2 => l2.id = l.id ∧ l2.image = l.image ∧ l2.file = l.file ∧
        l2.scale = l.scale ∧ l2.rotation = l.rotation ∧
        (some l.id ≠ st.selectedLayerId → l2 = l))
      st.layers (onCanvasMouseMove st px py).layers
    ∧ List.Forall₂ (fun l l2 => l2.id = l.id ∧ l2.image = l.image ∧ l2.file = l.file ∧
        l2.x = l.x ∧ l2.y = l.y ∧ l2.rotation = l.rotation ∧
        (some l.id ≠ st.selectedLayerId → l2 = l))
      st.layers (handleZoomIn st).layers
    ∧ List.Forall₂ (fun l l2 => l2.id = l.id ∧ l2.image = l.image ∧ l2.file = l.file ∧
        l2.x = l.x ∧ l2.y = l.y ∧ l2.rotation = l.rotation ∧
        (some l.id ≠ st.selectedLayerId → l2 = l))
      st.layers (handleZoomOut st).layers
    ∧ List.Forall₂ (fun l l2 => l2.id = l.id ∧ l2.image = l.image ∧ l2.file = l.file ∧
        l2.x = l.x ∧ l2.y = l.y ∧ l2.scale = l.scale ∧
        (some l.id ≠ st.selectedLayerId → l2 = l))
      st.layers (handleRotateLeft st).layers
    ∧ List.Forall₂ (fun l l2 => l2.id = l.id ∧ l2.image = l.image ∧ l2.file = l.file ∧
        l2.x = l.x ∧ l2.y = l.y ∧ l2.scale = l.scale ∧
        (some l.id ≠ st.selectedLayerId → l2 = l))
      st.layers (handleRotateRight st).layers
    ∧ List.Forall₂ (fun l l2 => l2.id = l.id ∧ l2.image = l.image ∧ l2.file = l.file ∧
        (some l.id ≠ st.selectedLayerId → l2 = l))
      st.layers (handleReset st).layers := by
  have hsel : ∀ (l : ImageLayer), (some l.id == st.selectedLayerId) = true →
      some l.id = st.selectedLayerId := fun l h => by simpa using h
  refine ⟨?_, ?_, ?_, ?_, ?_, ?_⟩
  · by_cases hg : st.dragging = false ∨ st.selectedLayerId = none
    · rw [onCanvasMouseMove, if_pos hg]
      exact forall2_self_frame _ _ fun l _ => ⟨rfl, rfl, rfl, rfl, rfl, fun _ => rfl⟩
    · rw [onCanvasMouseMove, if_neg hg]
      apply forall2_map_frame
      intro l _
      by_cases h : (some l.id == st.selectedLayerId) = true
      · rw [if_pos h]
        exact ⟨rfl, rfl, rfl, rfl, rfl, fun hne => absurd (hsel l h) hne⟩
      · rw [if_neg h]
        exact ⟨rfl, rfl, rfl, rfl, rfl, fun _ => rfl⟩
  · rw [handleZoomIn]
    apply forall2_map_frame
    intro l _
    by_cases h : (some l.id == st.selectedLayerId) = true
    · rw [if_pos h]
      exact ⟨rfl, rfl, rfl, rfl, rfl, rfl, fun hne => absurd (hsel l h) hne⟩
    · rw [if_neg h]
      exact ⟨rfl, rfl, rfl, rfl, rfl, rfl, fun _ => rfl⟩
  · rw [handleZoomOut]
    apply forall2_map_frame
    intro l _
    by_cases h : (some l.id == st.selectedLayerId) = true
    · rw [if_pos h]
      exact ⟨rfl, rfl, rfl, rfl, rfl, rfl, fun hne => absurd (hsel l h) hne⟩
    · rw [if_neg h]
      exact ⟨rfl, rfl, rfl, rfl, rfl, rfl, fun _ => rfl⟩
  · rw [handleRotateLeft]
    apply forall2_map_frame
    intro l _
    by_cases h : (some l.id == st.selectedLayerId) = true
    · rw [if_pos h]
      exact ⟨rfl, rfl, rfl, rfl, rfl, rfl, fun hne => absurd (hsel l h) hne⟩
    · rw [if_neg h]
      exact ⟨rfl, rfl, rfl, rfl, rfl, rfl, fun _ => rfl⟩
  · rw [handleRotateRight]
    apply forall2_map_frame
    intro l _
    by_cases h : (some l.id == st.selectedLayerId) = true
    · rw [if_pos h]
      exact ⟨rfl, rfl, rfl, rfl, rfl, rfl, fun hne => absurd (hsel l h) hne⟩
    · rw [if_neg h]
      exact ⟨rfl, rfl, rfl, rfl, rfl, rfl, fun _ => rfl⟩
  · cases hf : st.layers.find? (fun l => some l.id == st.selectedLayerId) with
    | none =>
        rw [handleReset, hf]
        exact forall2_self_frame _ _ fun l _ => ⟨rfl, rfl, rfl, fun _ => rfl⟩
    | some s =>
        rw [handleReset, hf]
        apply forall2_map_frame
        intro l _
        by_cases h : (some l.id == st.selectedLayerId) = true
        · rw [if_pos h]
          exact ⟨rfl, rfl, rfl, fun hne => absurd (hsel l h) hne⟩
        · rw [if_neg h]
          exact ⟨rfl, rfl, rfl, fun _ => rfl⟩

/-- Witness for `transform_edits_frame`: the zoom-in frame condition at
the concrete two-layer state. -/
theorem transform_edits_frame_witness :
    List.Forall₂ (fun l l2 => l2.id = l.id ∧ l2.image = l.image ∧ l2.file = l.file ∧
        l2.x = l.x ∧ l2.y = l.y ∧ l2.rotation = l.rotation ∧
        (some l.id ≠ stateAB.selectedLayerId → l2 = l))
      stateAB.layers (handleZoomIn stateAB).layers :=
  (transform_edits_frame stateAB 0 0).2.1

/-- C2: the dashed selection outline is drawn onto the very canvas that
`toDataURL` exports to `onDesignReady`.  At the same assets and layer
list, the exported pixel `(466, 125)` is the opaque green stroke when
the layer is selected but fully transparent when nothing is selected —
the exported bitmap depends on the selection. -/
theorem selection_outline_in_export :
    renderCanvas trigZ clearTape [layerW] (some ("L")) 466 125
      ≠ renderCanvas trigZ clearTape [layerW] none 466 125
    ∧ renderCanvas trigZ clearTape [layerW] (some ("L")) 466 125 = greenStroke := by
  have h1 : renderCanvas trigZ clearTape [layerW] (some ("L")) 466 125 = greenStroke := by
    have h0 : ⌊(4 : ℚ) / 12⌋ = 0 := by rw [Int.floor_eq_iff]; norm_num
    simp [renderCanvas, drawImageRect, bitmapAt, clearTape, layerW, whiteBmp, trigZ,
      layerSample, sourceOver, multiplyOver, destinationIn, bgPixel, greenStroke,
      borderCovers, dashedRectStroke, dashOn, CANVAS_WIDTH, CANVAS_HEIGHT, clearPx, h0]
    norm_num
  have h2 : (renderCanvas trigZ clearTape [layerW] none 466 125).a = 0 := by
    simp [renderCanvas, drawImageRect, bitmapAt, clearTape, layerW, whiteBmp, trigZ,
      layerSample, sourceOver, multiplyOver, destinationIn, bgPixel,
      CANVAS_WIDTH, CANVAS_HEIGHT, clearPx]
  refine ⟨?_, h1⟩
  intro heq
  rw [h1] at heq
  have ha := congrArg RGBA.a heq
  rw [h2] at ha
  norm_num [greenStroke] at ha

/-- C3 (amended): with no layer selected (so no outline pass takes
place), every canvas point at which the tape bitmap — the mask of the
tape-alpha configurations — samples with alpha `0` is fully transparent
in the final composite, whatever the layers' bitmaps and transforms. -/
theorem mask_clip_transparent_outside (t : Trig) (tape : Bitmap)
    (ls : List ImageLayer) (x y : ℚ) (hne : ls ≠ [])
    (ha : (drawImageRect tape x y).a = 0) :
    (renderCanvas t tape ls none x y).a = 0 := by
  have hfind : ls.find? (fun l => some l.id == (none : Option String)) = none := by
    rw [List.find?_eq_none]
    intro a _
    simp only [show (some a.id == (none : Option String)) = false from rfl]
    simp
  simp only [renderCanvas, hfind]
  rw [if_pos (by simpa using List.length_pos.mpr hne)]
  simp only [destinationIn]
  rw [ha, mul_zero]

/-- Witness for `mask_clip_transparent_outside`: with the
empty-silhouette tape and one white layer, the unselected composite is
fully transparent at `(466, 125)`. -/
theorem mask_clip_transparent_outside_witness :
    (renderCanvas trigZ clearTape [layerW] none 466 125).a = 0 :=
  mask_clip_transparent_outside trigZ clearTape [layerW] 466 125 (by simp)
    (by simp [drawImageRect, bitmapAt, clearTape, clearPx])

/-- C3, counterexample to the claim as stated: at a point where the
mask is not opaque (the tape samples with alpha `0`), the final
composite of a state with a selected layer is nonetheless fully opaque
— the dashed selection outline is drawn after the `destination-in`
clip and escapes the mask. -/
theorem mask_clip_outline_counterexample :
    (drawImageRect clearTape 468 125).a = 0
    ∧ (renderCanvas trigZ clearTape [layerW] (some ("L")) 468 125).a = 1 := by
  constructor
  · simp [drawImageRect, bitmapAt, clearTape, clearPx]
  · simp [renderCanvas, drawImageRect, bitmapAt, clearTape, layerW, whiteBmp, trigZ,
      layerSample, sourceOver, multiplyOver, destinationIn, bgPixel, greenStroke,
      borderCovers, dashedRectStroke, dashOn, CANVAS_WIDTH, CANVAS_HEIGHT, clearPx]
    norm_num

/-- C6 (amended): the compositor folds the layer list in store order,
blending each layer onto the accumulated surface with `multiplyOver`
(so the later layer B is applied after the earlier layer A); but
multiply blending gives no pixel precedence — over any fully opaque
accumulated surface the two application orders produce the identical
pixel. -/
theorem zorder_multiply_in_store_order (t : Trig) (A B : ImageLayer)
    (base p q c : RGBA) (x y : ℚ) (hc : c.a = 1) :
    ([A, B].foldl (fun acc l => multiplyOver (layerSample t l x y) acc) base
      = multiplyOver (layerSample t B x y) (multiplyOver (layerSample t A x y) base))
    ∧ multiplyOver q (multiplyOver p c) = multiplyOver p (multiplyOver q c) := by
  have key : ∀ s d : RGBA, d.a = 1 →
      multiplyOver s d = ⟨d.r * (s.a * s.r + 1 - s.a), d.g * (s.a * s.g + 1 - s.a),
        d.b * (s.a * s.b + 1 - s.a), 1⟩ := by
    intro s d hd
    have hden : s.a + 1 * (1 - s.a) = 1 := by ring
    simp only [multiplyOver, hd, hden, div_one]
    ext <;> dsimp only <;> ring
  refine ⟨rfl, ?_⟩
  rw [key p c hc, key q c hc, key q _ rfl, key p _ rfl]
  ext <;> dsimp only <;> ring

/-- Witness for `zorder_multiply_in_store_order` at the concrete black
and white layers over the opaque background fill. -/
theorem zorder_multiply_witness :
    ([layerB, layerTop].foldl
        (fun acc l => multiplyOver (layerSample trigZ l 512 150) acc) bgPixel
      = multiplyOver (layerSample trigZ layerTop 512 150)
          (multiplyOver (layerSample trigZ layerB 512 150) bgPixel))
    ∧ multiplyOver ⟨1, 1, 1, 1⟩ (multiplyOver ⟨0, 0, 0, 1⟩ bgPixel)
        = multiplyOver ⟨0, 0, 0, 1⟩ (multiplyOver ⟨1, 1, 1, 1⟩ bgPixel) :=
  zorder_multiply_in_store_order trigZ layerB layerTop bgPixel
    ⟨0, 0, 0, 1⟩ ⟨1, 1, 1, 1⟩ bgPixel 512 150 rfl

/-- C6, counterexample to the claim as stated: with the black layer A
below the white layer B at the same placement, swapping the two layers
leaves the composite pixel at their common center unchanged (the later
layer takes no precedence), while removing A changes it (A's black
shows through B) — B's pixels do not take precedence over A's. -/
theorem multiply_no_precedence_counterexample :
    renderCanvas trigZ solidTape [layerB, layerTop] none 512 150
      = renderCanvas trigZ solidTape [layerTop, layerB] none 512 150
    ∧ renderCanvas trigZ solidTape [layerB, layerTop] none 512 150
      ≠ renderCanvas trigZ solidTape [layerTop] none 512 150 := by
  constructor
  · norm_num [renderCanvas, drawImageRect, bitmapAt, solidTape, layerB, layerTop,
      blackBmp, whiteBmp, trigZ, layerSample, sourceOver, multiplyOver, destinationIn,
      bgPixel, CANVAS_WIDTH, CANVAS_HEIGHT, clearPx]
  · norm_num [renderCanvas, drawImageRect, bitmapAt, solidTape, layerB, layerTop,
      blackBmp, whiteBmp, trigZ, layerSample, sourceOver, multiplyOver, destinationIn,
      bgPixel, CANVAS_WIDTH, CANVAS_HEIGHT, clearPx, RGBA.ext_iff]

end Alura
